import Mathlib

/-!
Verification of the cel-rs heterogeneous stack runtime.

This file is a shallow embedding of the core of the `cel-rs` repository:
the alignment arithmetic (`src/src/memory.rs`), the padding-aware byte
stack `RawStack` (`src/src/raw_stack.rs`), the type-erased executor
`RawSegment` (`src/src/raw_segment.rs`) and the runtime-checked builder
`DynSegment` (`src/src/dyn_segment.rs`).

Modelling conventions:
* `usize` values (lengths, indices, alignments) are modelled as `Nat`.
  Buffer lengths in the program are bounded by the allocator
  (`RawVec::reserve` aborts long before `usize` wraps), so index
  arithmetic that the program actually performs never overflows;
  the one place where the source can underflow a `usize`
  (`RawStack::pop`'s `p - padding_count`, a panic in debug builds) is
  modelled explicitly by returning `none`.
* Rust types are modelled by a descriptor `Ty` carrying the `TypeId`,
  `size_of` and `align_of` of the type.  Alignments of Rust types are
  always powers of two, so the descriptor stores the exponent.
* Values are modelled as their byte representation, a `List Nat`
  (one entry per byte).  Closures become Lean functions on byte lists.
* `&mut self` methods that can fail with an early `return Err(..)`
  are modelled as functions returning the result together with the
  (possibly updated) receiver, so that "no state is mutated on error"
  is a real statement about the model, not a triviality.
-/

namespace CelRS

/-- `align_index` from `src/src/memory.rs`:
`(index + align - 1) & !(align - 1)` on `usize`.
Over `Nat` (which has no fixed width) the bit-and with the complemented
mask `!(align - 1)` is exactly "subtract the low bits selected by the
mask `align - 1`", which is how we write it here; for a power-of-two
`align` (the function's documented precondition, enforced by
`debug_assert!(align.is_power_of_two())`) the low bits are
`x % align`. -/
def align_index (align index : Nat) : Nat :=
  (index + align - 1) - ((index + align - 1) &&& (align - 1))

/-- The byte buffer of a `RawStack` (`src/src/raw_stack.rs`).  The
underlying `RawVec` is modelled by its logical contents from
`start_offset` on: a list of bytes.  Byte `i` of the model is byte
`start_offset + i` of the Rust buffer. -/
structure RawStack where
  buffer : List Nat
deriving DecidableEq

/-- The padding bytes `RawStack::push` writes when `aligned_index - len
= n > 0`: a `1` in the first padding byte and `0` in the rest
(`src/src/raw_stack.rs` lines 57-61). -/
def padBytes : Nat → List Nat
  | 0 => []
  | n + 1 => 1 :: List.replicate n 0

/-- The `padding_count` computed by `RawStack::pop`
(`src/src/raw_stack.rs` lines 94-103): if `padding` is set, the number
of trailing `0` bytes of the buffer below the popped value, plus one
for the `1` sentinel; otherwise `0`. -/
def padCount (padding : Bool) (below : List Nat) : Nat :=
  if padding then (below.reverse.takeWhile (fun b => b == 0)).length + 1 else 0

/-- `RawStack::push` (`src/src/raw_stack.rs` lines 49-69).  `val` is
the byte representation of the pushed value (`size_of::<T>()` bytes),
`align` is `align_of::<T>()`.  Grows the buffer to
`align_index align len + size`, writing the sentinel padding pattern in
between, and returns whether padding was inserted
(`aligned_index - len > 0`). -/
def RawStack.push (s : RawStack) (align : Nat) (val : List Nat) : RawStack × Bool :=
  (⟨s.buffer ++ padBytes (align_index align s.buffer.length - s.buffer.length) ++ val⟩,
   align_index align s.buffer.length - s.buffer.length != 0)

/-- `RawStack::pop` (`src/src/raw_stack.rs` lines 90-106).  Reads the
top `size` bytes, then truncates to `p - padding_count` where
`p = len - size`.  Both subtractions are `usize` subtractions in the
source and panic (debug) on underflow; those preconditions are modelled
by returning `none`. -/
def RawStack.pop (s : RawStack) (size : Nat) (padding : Bool) :
    Option (List Nat × RawStack) :=
  if size ≤ s.buffer.length then
    if padCount padding (s.buffer.take (s.buffer.length - size)) ≤ s.buffer.length - size then
      some (s.buffer.drop (s.buffer.length - size),
        ⟨s.buffer.take (s.buffer.length - size -
          padCount padding (s.buffer.take (s.buffer.length - size)))⟩)
    else none
  else none

/-- `RawStack::drop` (`src/src/raw_stack.rs` lines 118-120): pop and
discard the value. -/
def RawStack.dropVal (s : RawStack) (size : Nat) (padding : Bool) : Option RawStack :=
  (s.pop size padding).map (fun r => r.2)

/-- The argument preloading done by `RawSegment::call1` / `call2`
(`src/src/raw_segment.rs` lines 279, 302-303): each argument,
given as `(align_of, bytes)`, is pushed in order onto a fresh stack. -/
def RawStack.preload (args : List (Nat × List Nat)) : RawStack :=
  args.foldl (fun s a => (s.push a.1 a.2).1) ⟨[]⟩

/-- A well-bracketed sequence of `RawStack` push/pop pairs: `pair k v
inner rest` pushes a value with bytes `v` and alignment `2 ^ k` (Rust
type alignments are powers of two), runs `inner`, pops the value back
with the `padded` flag the push returned, and continues with `rest`. -/
inductive StackProg where
  | nil : StackProg
  | pair (alignLog : Nat) (val : List Nat) (inner rest : StackProg)

/-- Run a well-bracketed push/pop sequence; `none` if some pop hits a
`usize` underflow. -/
def StackProg.run : StackProg → RawStack → Option RawStack
  | .nil, s => some s
  | .pair k v inner rest, s =>
    match inner.run (s.push (2 ^ k) v).1 with
    | none => none
    | some s2 =>
      match s2.pop v.length (s.push (2 ^ k) v).2 with
      | none => none
      | some r => rest.run r.2

/-- A descriptor of a Rust type: its `TypeId` (an opaque tag, modelled
as a `Nat`), `size_of`, and `align_of` given by its exponent (Rust type
alignments are always powers of two). -/
structure Ty where
  id : Nat
  size : Nat
  alignLog : Nat
deriving DecidableEq

/-- `align_of` of the described type. -/
def Ty.align (t : Ty) : Nat := 2 ^ t.alignLog

/-- One stored operation of a `RawSegment`: the type-erased closure
together with the dispatcher that `push_op0` / `raw0` / `push_op1_` /
`push_op2_` / `push_op3_` pair it with (`src/src/raw_segment.rs`).
Closures are modelled as functions on byte representations; the const
padding booleans of the dispatcher are carried as data.
`raw0` is the fallible-op closure that `DynSegment::op0r` builds
(`src/src/dyn_segment.rs` lines 256-276): a user result plus the cloned
unwind list, one `(size_of, padded)` per live shadow entry in stack
order (each entry standing for the dropper `|s| s.drop::<T>(padded)`). -/
inductive Op where
  | op0 (r : Ty) (v : List Nat)
  | raw0 (r : Ty) (v : Except Nat (List Nat)) (unwind : List (Nat × Bool))
  | op1 (t r : Ty) (p0 : Bool) (f : List Nat → List Nat)
  | op2 (t u r : Ty) (p0 p1 : Bool) (f : List Nat → List Nat → List Nat)
  | op3 (t u v r : Ty) (p0 p1 p2 : Bool)
      (f : List Nat → List Nat → List Nat → List Nat)

/-- Outcome of running one operation or an operation list: success,
a user error propagated by a fallible op (with the stack as the
dispatcher left it), or a Rust panic (a `usize` underflow inside
`RawStack::pop`). -/
inductive RunResult where
  | ok (s : RawStack)
  | userError (e : Nat) (s : RawStack)
  | fault

/-- The unwind loop of the closure built by `DynSegment::op0r`
(`src/src/dyn_segment.rs` lines 269-271): run each saved dropper —
`|stack| stack.drop::<T>(padded)` — on the stack.  The caller passes
the droppers already reversed (the source iterates `.rev()`). -/
def runUnwind : List (Nat × Bool) → RawStack → Option RawStack
  | [], s => some s
  | d :: rest, s =>
    match s.dropVal d.1 d.2 with
    | none => none
    | some s2 => runUnwind rest s2

/-- Dispatcher semantics, one case per dispatcher in
`src/src/raw_segment.rs`: `op0` pushes the closure result (line 71);
`raw0` runs the fallible closure, pushing on success (lines 53-57) and,
for the `op0r`-built closure, unwinding the saved droppers in LIFO
order before surfacing the error (`src/src/dyn_segment.rs` lines
266-274); `op1/op2/op3` pop their arguments — top of stack last
argument first — with their const padding flags and push the closure's
result (lines 83-88, 170-176, 210-217). -/
def Op.run : Op → RawStack → RunResult
  | .op0 r v, s => .ok (s.push r.align v).1
  | .raw0 r v unwind, s =>
    match v with
    | .ok bytes => .ok (s.push r.align bytes).1
    | .error e =>
      match runUnwind unwind.reverse s with
      | some s2 => .userError e s2
      | none => .fault
  | .op1 t r p0 f, s =>
    match s.pop t.size p0 with
    | some (x, s1) => .ok (s1.push r.align (f x)).1
    | none => .fault
  | .op2 t u r p0 p1 f, s =>
    match s.pop u.size p1 with
    | some (y, s1) =>
      match s1.pop t.size p0 with
      | some (x, s2) => .ok (s2.push r.align (f x y)).1
      | none => .fault
    | none => .fault
  | .op3 t u v r p0 p1 p2 f, s =>
    match s.pop v.size p2 with
    | some (z, s1) =>
      match s1.pop u.size p1 with
      | some (y, s2) =>
        match s2.pop t.size p0 with
        | some (x, s3) => .ok (s3.push r.align (f x y z)).1
        | none => .fault
      | none => .fault
    | none => .fault

/-- The execution loop shared by `RawSegment::call0/call1/call2`
(`src/src/raw_segment.rs` lines 258-260): run each op in order,
stopping at the first error. -/
def runOps : List Op → RawStack → RunResult
  | [], s => .ok s
  | op :: rest, s =>
    match op.run s with
    | .ok s2 => runOps rest s2
    | r => r

/-- `RawSegment` (`src/src/raw_segment.rs` lines 12-17): the ordered
operation list and the recorded base alignment.  (The closure storage
and its droppers are folded into `Op`; they do not affect execution
results.) -/
structure RawSegment where
  ops : List Op
  base_alignment : Nat

/-- `RawSegment::new` (lines 28-35): no ops, `base_alignment = 0`. -/
def RawSegment.new : RawSegment := ⟨[], 0⟩

/-- `RawSegment::push_op0` (lines 63-75): append the dispatcher and
raise `base_alignment` to `align_of::<R>()`. -/
def RawSegment.push_op0 (r : Ty) (v : List Nat) (g : RawSegment) : RawSegment :=
  ⟨g.ops ++ [.op0 r v], max g.base_alignment r.align⟩

/-- `RawSegment::raw0` (lines 47-60) as instantiated by
`DynSegment::op0r`: append the fallible dispatcher and raise
`base_alignment` to `align_of::<R>()`. -/
def RawSegment.raw0 (r : Ty) (v : Except Nat (List Nat))
    (unwind : List (Nat × Bool)) (g : RawSegment) : RawSegment :=
  ⟨g.ops ++ [.raw0 r v unwind], max g.base_alignment r.align⟩

/-- `RawSegment::push_op1` (lines 107-120). -/
def RawSegment.push_op1 (t r : Ty) (p0 : Bool) (f : List Nat → List Nat)
    (g : RawSegment) : RawSegment :=
  ⟨g.ops ++ [.op1 t r p0 f], max g.base_alignment r.align⟩

/-- `RawSegment::push_op2` (lines 181-196). -/
def RawSegment.push_op2 (t u : Ty) (r : Ty) (p0 p1 : Bool)
    (f : List Nat → List Nat → List Nat) (g : RawSegment) : RawSegment :=
  ⟨g.ops ++ [.op2 t u r p0 p1 f], max g.base_alignment r.align⟩

/-- `RawSegment::push_op3` (lines 221-242). -/
def RawSegment.push_op3 (t u v : Ty) (r : Ty) (p0 p1 p2 : Bool)
    (f : List Nat → List Nat → List Nat → List Nat) (g : RawSegment) : RawSegment :=
  ⟨g.ops ++ [.op3 t u v r p0 p1 p2 f], max g.base_alignment r.align⟩

/-- Result of `RawSegment::call0/call1`: the final value's bytes, a
propagated user error, or a panic. -/
inductive CallResult where
  | ok (bytes : List Nat)
  | userError (e : Nat)
  | fault
deriving DecidableEq

/-- `RawSegment::call0` (lines 252-262): run the ops on a fresh stack,
then `pop::<T>(false)` the single remaining value. -/
def RawSegment.call0 (resSize : Nat) (g : RawSegment) : CallResult :=
  match runOps g.ops ⟨[]⟩ with
  | .ok s =>
    match s.pop resSize false with
    | some r => .ok r.1
    | none => .fault
  | .userError e _ => .userError e
  | .fault => .fault

/-- `RawSegment::call1` (lines 273-285): push the argument, run, pop. -/
def RawSegment.call1 (argAlign : Nat) (argBytes : List Nat) (resSize : Nat)
    (g : RawSegment) : CallResult :=
  match runOps g.ops ((RawStack.mk []).push argAlign argBytes).1 with
  | .ok s =>
    match s.pop resSize false with
    | some r => .ok r.1
    | none => .fault
  | .userError e _ => .userError e
  | .fault => .fault

/-- One entry of the builder's shadow stack, `StackInfo`
(`src/src/dyn_segment.rs` lines 112-116): the `TypeId`, the recorded
`padded` flag, and the dropper closure `|s| s.drop::<T>(padded)` —
represented by the data it closes over, `size_of::<T>` (the `padded`
flag it uses is the same recorded flag). -/
structure StackInfo where
  stack_id : Nat
  size : Nat
  padded : Bool
deriving DecidableEq

/-- The C layout of the `repr(C)` tail-first list `CStackList`
(`src/src/c_stack_list.rs`): for the list with head `t` and tail
`rest`, returns `(size_of, align_of, HEAD_LIMIT)`.  The head field is
placed at `align_index (align_of head) (size_of tail)`; `HEAD_LIMIT`
is the offset past the head; `size_of` rounds `HEAD_LIMIT` up to the
struct alignment (the `repr(C)` rule); `CNil<()>` is `(0, 1, 0)`. -/
def cLayout : List Ty → Nat × Nat × Nat
  | [] => (0, 1, 0)
  | t :: rest =>
    let tl := cLayout rest
    let lim := align_index t.align tl.1 + t.size
    let al := max t.align tl.2.1
    (align_index al lim, al, lim)

/-- `ToTypeIdList::to_stack_info_list` (`src/src/dyn_segment.rs` lines
126-144) on the reversed argument list (given here head-first, head =
last argument): the tail's entries followed by the head's entry, whose
`padded` flag is `CStackListHeadPadded::HEAD_PADDED`
(`src/src/c_stack_list.rs` line 66): head offset ≠ tail `HEAD_LIMIT`. -/
def to_stack_info_list : List Ty → List StackInfo
  | [] => []
  | t :: rest =>
    to_stack_info_list rest ++
      [⟨t.id, t.size, align_index t.align (cLayout rest).1 != (cLayout rest).2.2⟩]

/-- `DynSegment` (`src/src/dyn_segment.rs` lines 151-156). -/
structure DynSegment where
  segment : RawSegment
  argument_ids : List Nat
  stack_ids : List StackInfo
  stack_index : Nat

/-- `DynSegment::new::<Args>` (lines 161-172), with `Args` given as the
list of argument type descriptors in argument order: the shadow stack
comes from the reversed argument list, `argument_ids` is read back off
it, and `stack_index` starts at
`size_of::<ReverseList<Args::Output>>()`. -/
def DynSegment.new (args : List Ty) : DynSegment :=
  let sids := to_stack_info_list args.reverse
  ⟨RawSegment.new, sids.map (fun i => i.stack_id), sids, (cLayout args.reverse).1⟩

/-- Builder errors of `pop_types` (lines 194-208): the two `ensure!`
failures. -/
inductive BuildErr where
  | tooManyArguments (expected got : Nat)
  | stackTypeMismatch
deriving DecidableEq

/-- `DynSegment::pop_types` (lines 194-208): checks `L::LENGTH ≤
stack_ids.len()`, then compares the expected `TypeId`s — in argument
order — against the top entries in vector order, and only then
truncates.  Models `&mut self` by returning the receiver along with
the result. -/
def DynSegment.pop_types (expected : List Nat) (d : DynSegment) :
    Except BuildErr Unit × DynSegment :=
  if expected.length ≤ d.stack_ids.length then
    if expected = ((d.stack_ids.drop (d.stack_ids.length - expected.length)).map
        (fun i => i.stack_id)) then
      (.ok (), { d with stack_ids := d.stack_ids.take (d.stack_ids.length - expected.length) })
    else (.error .stackTypeMismatch, d)
  else (.error (.tooManyArguments expected.length d.stack_ids.length), d)

/-- `DynSegment::push_type::<T>` (lines 211-228): compute the aligned
index from the current `stack_index`, record the shadow entry with
`padded = (aligned_index ≠ stack_index)` and the dropper
`|s| s.drop::<T>(padded)`, and set
`stack_index = aligned_index + size_of::<T>()`. -/
def DynSegment.push_type (ty : Ty) (d : DynSegment) : DynSegment :=
  { d with
    stack_ids := d.stack_ids ++
      [⟨ty.id, ty.size, align_index ty.align d.stack_index != d.stack_index⟩],
    stack_index := align_index ty.align d.stack_index + ty.size }

/-- `DynSegment::get_last_n_padded::<N>` (lines 230-237): the `padded`
flags of the last `N` entries in vector order, the array padded at the
end with `false` when fewer than `N` entries exist. -/
def DynSegment.get_last_n_padded (n : Nat) (d : DynSegment) : List Bool :=
  let tail := (d.stack_ids.drop (d.stack_ids.length - n)).map (fun i => i.padded)
  tail ++ List.replicate (n - tail.length) false

/-- `DynSegment::op0` (lines 242-249). -/
def DynSegment.op0 (r : Ty) (v : List Nat) (d : DynSegment) : DynSegment :=
  DynSegment.push_type r { d with segment := d.segment.push_op0 r v }

/-- `DynSegment::op0r` (lines 256-276): clone the droppers of the
currently live shadow entries into the fallible closure, then record
the result type. -/
def DynSegment.op0r (r : Ty) (v : Except Nat (List Nat)) (d : DynSegment) : DynSegment :=
  DynSegment.push_type r
    { d with segment :=
        d.segment.raw0 r v (d.stack_ids.map (fun i => (i.size, i.padded))) }

/-- `DynSegment::op1` (lines 286-297): snapshot the top padding flag,
verify and truncate the shadow types, forward to
`RawSegment::push_op1`, record the result type. -/
def DynSegment.op1 (t r : Ty) (f : List Nat → List Nat) (d : DynSegment) :
    Except BuildErr Unit × DynSegment :=
  let ps := d.get_last_n_padded 1
  match d.pop_types [t.id] with
  | (.ok _, d1) =>
    (.ok (), DynSegment.push_type r
      { d1 with segment := d1.segment.push_op1 t r (ps.getD 0 false) f })
  | (.error e, d1) => (.error e, d1)

/-- `DynSegment::op2` (lines 307-319). -/
def DynSegment.op2 (t u r : Ty) (f : List Nat → List Nat → List Nat)
    (d : DynSegment) : Except BuildErr Unit × DynSegment :=
  let ps := d.get_last_n_padded 2
  match d.pop_types [t.id, u.id] with
  | (.ok _, d1) =>
    (.ok (), DynSegment.push_type r
      { d1 with segment :=
          d1.segment.push_op2 t u r (ps.getD 0 false) (ps.getD 1 false) f })
  | (.error e, d1) => (.error e, d1)

/-- `DynSegment::op3` (lines 329-342). -/
def DynSegment.op3 (t u v r : Ty)
    (f : List Nat → List Nat → List Nat → List Nat)
    (d : DynSegment) : Except BuildErr Unit × DynSegment :=
  let ps := d.get_last_n_padded 3
  match d.pop_types [t.id, u.id, v.id] with
  | (.ok _, d1) =>
    (.ok (), DynSegment.push_type r
      { d1 with segment :=
          (d1.segment.push_op3 t u v r
            (ps.getD 0 false) (ps.getD 1 false) (ps.getD 2 false) f) })
  | (.error e, d1) => (.error e, d1)

/-- The errors `DynSegment::call0/call1` can return from their prelude
checks (lines 419-475): wrong argument count, argument `TypeId`
mismatch, a `pop_types` failure on the result type, or values left on
the shadow stack. -/
inductive CallErr where
  | arityMismatch (expected got : Nat)
  | argumentTypeMismatch
  | build (e : BuildErr)
  | unconsumed (left : Nat)
deriving DecidableEq

/-- Outcome of `DynSegment::call0/call1`. -/
inductive CallOutcome where
  | ok (bytes : List Nat)
  | builderError (e : CallErr)
  | userError (e : Nat)
  | fault
deriving DecidableEq

/-- `DynSegment::call0::<R>` (lines 419-437): require no declared
arguments, `pop_types::<(R, ())>` (which truncates the shadow stack on
success), require the shadow stack now empty, then run the raw
segment. -/
def DynSegment.call0 (r : Ty) (d : DynSegment) : CallOutcome × DynSegment :=
  if d.argument_ids.length ≠ 0 then
    (.builderError (.arityMismatch 0 d.argument_ids.length), d)
  else
    match d.pop_types [r.id] with
    | (.error e, d1) => (.builderError (.build e), d1)
    | (.ok _, d1) =>
      if d1.stack_ids.length ≠ 0 then
        (.builderError (.unconsumed d1.stack_ids.length), d1)
      else
        match d1.segment.call0 r.size with
        | .ok bytes => (.ok bytes, d1)
        | .userError e => (.userError e, d1)
        | .fault => (.fault, d1)

/-- `DynSegment::call1::<A, R>` (lines 449-475): additionally checks
the declared argument count is one and the argument `TypeId` matches,
then delegates to `RawSegment::call1` with the argument pushed first. -/
def DynSegment.call1 (a : Ty) (argBytes : List Nat) (r : Ty) (d : DynSegment) :
    CallOutcome × DynSegment :=
  if d.argument_ids.length ≠ 1 then
    (.builderError (.arityMismatch 1 d.argument_ids.length), d)
  else if d.argument_ids.getD 0 0 ≠ a.id then
    (.builderError .argumentTypeMismatch, d)
  else
    match d.pop_types [r.id] with
    | (.error e, d1) => (.builderError (.build e), d1)
    | (.ok _, d1) =>
      if d1.stack_ids.length ≠ 0 then
        (.builderError (.unconsumed d1.stack_ids.length), d1)
      else
        match d1.segment.call1 a.align argBytes r.size with
        | .ok bytes => (.ok bytes, d1)
        | .userError e => (.userError e, d1)
        | .fault => (.fault, d1)

/-- Descriptor of Rust `u8`: size 1, align 1. -/
def u8Ty : Ty := ⟨1, 1, 0⟩

/-- Descriptor of Rust `u16`: size 2, align 2. -/
def u16Ty : Ty := ⟨2, 2, 1⟩

/-- Descriptor of Rust `u32`: size 4, align 4. -/
def u32Ty : Ty := ⟨3, 4, 2⟩

/-- Descriptor of Rust `u64`: size 8, align 8. -/
def u64Ty : Ty := ⟨4, 8, 3⟩

/-- Descriptor of Rust `()`: size 0, align 1. -/
def unitTy : Ty := ⟨5, 0, 0⟩

/-- The alignment a call's run-time stack must accommodate, per the
spec ("at least the maximum alignment of any type pushed during
execution"): the maximum over the alignments of the declared argument
types (pushed by `call1`/`call2` before the first op runs) and of every
op's result type (pushed by its dispatcher).  This is the quantity the
recorded `base_alignment` is compared against; it is defined from the
spec's words, not from the source. -/
def maxPushedAlignment (args : List Ty) (ops : List Op) : Nat :=
  max ((args.map Ty.align).foldr max 1)
    ((ops.map (fun op =>
      match op with
      | .op0 r _ => r.align
      | .raw0 r _ _ => r.align
      | .op1 _ r _ _ => r.align
      | .op2 _ _ r _ _ _ => r.align
      | .op3 _ _ _ r _ _ _ _ => r.align)).foldr max 1)

/-- The builder program that exhibits the drop-on-error failure
(claim C2): `new::<()>`, `op0(|| 7u8)`, `op1(|x: u8| → u16)`,
`op0r(|| Err(42))`, `op2(|_: u16, _: u32| → u32)`.  The `op1` result's
shadow entry is recorded as `padded = true` (the builder's
`stack_index` is 1 when the `u16` is recorded), so the dropper cloned
into the `op0r` closure pops with `padded = true`. -/
def failingDropSegment : DynSegment :=
  (DynSegment.op2 u16Ty u32Ty u32Ty (fun _ _ => [0, 0, 0, 0])
    (DynSegment.op0r u32Ty (.error 42)
      ((DynSegment.op1 u8Ty u16Ty (fun _ => [5, 0])
        (DynSegment.op0 u8Ty [7] (DynSegment.new []))).2))).2

/-- The builder program for claim C4: `new::<(u64,)>` followed by
`op1(|x: u64| → u8)`.  Its only op result is a `u8`, so the recorded
`base_alignment` is 1, although `call1` pushes the `u64` argument. -/
def lowAlignSegment : DynSegment :=
  (DynSegment.op1 u64Ty u8Ty (fun _ => [0]) (DynSegment.new [u64Ty])).2

/-- The builder program for claims C7 and C9: `new::<()>` followed by
two `op0(|| .. : u32)`, leaving two `u32` entries on the shadow
stack. -/
def twoValueSegment : DynSegment :=
  DynSegment.op0 u32Ty [2, 0, 0, 0] (DynSegment.op0 u32Ty [1, 0, 0, 0] (DynSegment.new []))

/-- The builder program used to exhibit claim C9's failure: `new::<()>`
with a single `op0(|| 42u32)`; `call0::<u32>` succeeds once. -/
def oneValueSegment : DynSegment :=
  DynSegment.op0 u32Ty [42, 0, 0, 0] (DynSegment.new [])

/-! ## Theorems -/

/-- For a power-of-two alignment, `align_index`'s bit trick is
rounding down `index + align - 1` to a multiple of the alignment. -/
theorem align_index_two_pow (k len : Nat) :
    align_index (2 ^ k) len = (len + 2 ^ k - 1) - (len + 2 ^ k - 1) % 2 ^ k := by
  unfold align_index
  rw [Nat.and_pow_two_sub_one_eq_mod]

/-- The three defining properties of aligning up: the result is at
least the input, is a multiple of the alignment, and overshoots by
less than one alignment. -/
theorem align_index_spec (k len : Nat) :
    len ≤ align_index (2 ^ k) len ∧ align_index (2 ^ k) len % 2 ^ k = 0 ∧
      align_index (2 ^ k) len - len < 2 ^ k := by
  have hA : 0 < 2 ^ k := Nat.pos_pow_of_pos k (by omega)
  rw [align_index_two_pow]
  have hmlt : (len + 2 ^ k - 1) % 2 ^ k < 2 ^ k := Nat.mod_lt _ hA
  have hmle : (len + 2 ^ k - 1) % 2 ^ k ≤ len + 2 ^ k - 1 := Nat.mod_le _ _
  refine ⟨?_, ?_, ?_⟩
  · generalize (len + 2 ^ k - 1) % 2 ^ k = m at hmlt hmle ⊢
    omega
  · have h2 : len + 2 ^ k - 1 - (len + 2 ^ k - 1) % 2 ^ k
        = 2 ^ k * ((len + 2 ^ k - 1) / 2 ^ k) :=
      Nat.sub_eq_of_eq_add (Nat.div_add_mod (len + 2 ^ k - 1) (2 ^ k)).symm
    rw [h2, Nat.mul_mod_right]
  · generalize (len + 2 ^ k - 1) % 2 ^ k = m at hmlt hmle ⊢
    omega

/-- C10: for every power-of-two alignment `A = 2 ^ k` and every length
`L`, `align_index A L ≥ L`, `align_index A L mod A = 0`, and
`align_index A L − L < A`. -/
theorem align_index_bounds (k L : Nat) :
    L ≤ align_index (2 ^ k) L ∧ align_index (2 ^ k) L % 2 ^ k = 0 ∧
      align_index (2 ^ k) L - L < 2 ^ k :=
  align_index_spec k L

/-- `padBytes n` is `n` bytes long. -/
theorem length_padBytes (n : Nat) : (padBytes n).length = n := by
  cases n <;> simp [padBytes]

/-- The backward zero-scan of `RawStack::pop` stops exactly at the `1`
sentinel: the zero-prefix of `replicate m 0 ++ 1 :: l` is the `m`
zeros. -/
theorem takeWhile_replicate_zero (m : Nat) (l : List Nat) :
    (List.replicate m 0 ++ 1 :: l).takeWhile (fun b => b == 0) = List.replicate m 0 := by
  induction m with
  | zero => simp [List.takeWhile_cons]
  | succ n ih => simp [List.replicate_succ, List.takeWhile_cons, ih]

/-- Popping a value of the right size whose `padding_count` scan yields
exactly the number of padding bytes beneath it removes the value and
the padding, restoring the buffer beneath. -/
theorem pop_append (B P v : List Nat) (flag : Bool)
    (hc : padCount flag (B ++ P) = P.length) :
    RawStack.pop ⟨(B ++ P) ++ v⟩ v.length flag = some (v, ⟨B⟩) := by
  have h1 : v.length ≤ ((B ++ P) ++ v).length := by simp; omega
  have e1 : ((B ++ P) ++ v).length - v.length = (B ++ P).length := by simp; omega
  have e2 : ((B ++ P) ++ v).take (B ++ P).length = B ++ P := List.take_left _ _
  have e3 : ((B ++ P) ++ v).drop (B ++ P).length = v := List.drop_left _ _
  have e4 : (B ++ P).length - P.length = B.length := by simp
  have e5 : ((B ++ P) ++ v).take B.length = B := by
    rw [List.append_assoc]
    exact List.take_left B (P ++ v)
  unfold RawStack.pop
  rw [if_pos h1, e1, e2, e3, hc, if_pos (by simp : P.length ≤ (B ++ P).length),
    e4, e5]

/-- Popping an unpadded value of the right size removes exactly its
bytes. -/
theorem pop_append_nopad (B v : List Nat) :
    RawStack.pop ⟨B ++ v⟩ v.length false = some (v, ⟨B⟩) := by
  have h := pop_append B [] v false (by simp [padCount])
  simpa using h

/-- Popping a padded value of the right size removes its bytes and the
whole sentinel run, whatever bytes lie beneath. -/
theorem pop_append_pad (B v : List Nat) (m : Nat) :
    RawStack.pop ⟨(B ++ padBytes (m + 1)) ++ v⟩ v.length true = some (v, ⟨B⟩) := by
  refine pop_append B (padBytes (m + 1)) v true ?_
  have hrev : (B ++ padBytes (m + 1)).reverse
      = List.replicate m 0 ++ 1 :: B.reverse := by
    simp [padBytes, List.reverse_append]
  simp [padCount, hrev, takeWhile_replicate_zero, length_padBytes]

/-- The balanced push/pop round trip: popping with the size of the
pushed value and the `padded` flag `push` returned yields the pushed
bytes and restores the stack exactly. -/
theorem pop_push (s : RawStack) (k : Nat) (v : List Nat) :
    (s.push (2 ^ k) v).1.pop v.length (s.push (2 ^ k) v).2 = some (v, s) := by
  obtain ⟨B⟩ := s
  have hle : B.length ≤ align_index (2 ^ k) B.length := (align_index_spec k B.length).1
  have hbuf : ((RawStack.mk B).push (2 ^ k) v).1
      = ⟨(B ++ padBytes (align_index (2 ^ k) B.length - B.length)) ++ v⟩ := by
    simp [RawStack.push]
  have hflag : ((RawStack.mk B).push (2 ^ k) v).2
      = (align_index (2 ^ k) B.length - B.length != 0) := rfl
  rw [hbuf, hflag]
  cases hpad : align_index (2 ^ k) B.length - B.length with
  | zero =>
    simpa [padBytes] using pop_append_nopad B v
  | succ m =>
    simpa using pop_append_pad B v m

/-- C1: pushing a value (of any Rust type, so with power-of-two
alignment `2 ^ k`) and popping it back with the returned `padded` flag
returns the value and restores the stack — in particular the buffer
length — exactly; and consequently every well-bracketed sequence of
push/pop pairs performed in LIFO order with the returned flags restores
the starting buffer, in particular the starting length. -/
theorem raw_stack_push_pop_lifo :
    (∀ (s : RawStack) (k : Nat) (v : List Nat),
        (s.push (2 ^ k) v).1.pop v.length (s.push (2 ^ k) v).2 = some (v, s)) ∧
      ∀ (p : StackProg) (s : RawStack), p.run s = some s := by
  refine ⟨pop_push, ?_⟩
  intro p
  induction p with
  | nil => intro s; rfl
  | pair k v inner rest ih1 ih2 =>
    intro s
    simp [StackProg.run, ih1, pop_push, ih2]

/-- `pop_push` restated with a type descriptor's alignment. -/
theorem pop_push_ty (s : RawStack) (ty : Ty) (v : List Nat) :
    (s.push ty.align v).1.pop v.length (s.push ty.align v).2 = some (v, s) :=
  pop_push s ty.alignLog v

/-- C5: the `push_op2_` dispatcher pops the top of the stack as the
right operand `u` and the value beneath as the left operand `t` and
pushes `f t u`; the `push_op3_` dispatcher symmetrically pops `v` (top),
`u`, `t` and pushes `f t u v`.  With operands pushed left-to-right onto
a stack `s`, running the dispatcher produces exactly `s` with the
closure applied in argument order pushed on top. -/
theorem op2_op3_operand_order (s : RawStack) (tyT tyU tyV tyR : Ty)
    (t u v : List Nat) (f2 : List Nat → List Nat → List Nat)
    (f3 : List Nat → List Nat → List Nat → List Nat)
    (ht : tyT.size = t.length) (hu : tyU.size = u.length)
    (hv : tyV.size = v.length) :
    (Op.op2 tyT tyU tyR (s.push tyT.align t).2
          ((s.push tyT.align t).1.push tyU.align u).2 f2).run
        ((s.push tyT.align t).1.push tyU.align u).1
      = .ok ((s.push tyR.align (f2 t u)).1) ∧
    (Op.op3 tyT tyU tyV tyR (s.push tyT.align t).2
          ((s.push tyT.align t).1.push tyU.align u).2
          (((s.push tyT.align t).1.push tyU.align u).1.push tyV.align v).2 f3).run
        (((s.push tyT.align t).1.push tyU.align u).1.push tyV.align v).1
      = .ok ((s.push tyR.align (f3 t u v)).1) := by
  constructor
  · simp [Op.run, ht, hu, pop_push_ty]
  · simp [Op.run, ht, hu, hv, pop_push_ty]

/-- Witness for `op2_op3_operand_order` at concrete operands. -/
theorem op2_op3_operand_order_witness :
    u16Ty.size = [1, 2].length ∧ u8Ty.size = [3].length ∧
      u32Ty.size = [4, 5, 6, 7].length ∧
      ((Op.op2 u16Ty u8Ty u8Ty ((⟨[9]⟩ : RawStack).push u16Ty.align [1, 2]).2
            (((⟨[9]⟩ : RawStack).push u16Ty.align [1, 2]).1.push u8Ty.align [3]).2
            (fun a b => b ++ a)).run
          (((⟨[9]⟩ : RawStack).push u16Ty.align [1, 2]).1.push u8Ty.align [3]).1
        = .ok (((⟨[9]⟩ : RawStack).push u8Ty.align ((fun a b => b ++ a) [1, 2] [3])).1) ∧
      (Op.op3 u16Ty u8Ty u32Ty u8Ty ((⟨[9]⟩ : RawStack).push u16Ty.align [1, 2]).2
            (((⟨[9]⟩ : RawStack).push u16Ty.align [1, 2]).1.push u8Ty.align [3]).2
            ((((⟨[9]⟩ : RawStack).push u16Ty.align [1, 2]).1.push u8Ty.align
                [3]).1.push u32Ty.align [4, 5, 6, 7]).2
            (fun a b c => c ++ b ++ a)).run
          ((((⟨[9]⟩ : RawStack).push u16Ty.align [1, 2]).1.push u8Ty.align
              [3]).1.push u32Ty.align [4, 5, 6, 7]).1
        = .ok (((⟨[9]⟩ : RawStack).push u8Ty.align
            ((fun a b c => c ++ b ++ a) [1, 2] [3] [4, 5, 6, 7])).1)) :=
  ⟨rfl, rfl, rfl,
    op2_op3_operand_order ⟨[9]⟩ u16Ty u8Ty u32Ty u8Ty [1, 2] [3] [4, 5, 6, 7]
      (fun a b => b ++ a) (fun a b c => c ++ b ++ a) rfl rfl rfl⟩

/-- `pop_types` either succeeds or leaves the receiver untouched: both
`ensure!` checks run before the `truncate`. -/
theorem pop_types_cases (expected : List Nat) (d : DynSegment) :
    (d.pop_types expected).1 = .ok () ∨ (d.pop_types expected).2 = d := by
  unfold DynSegment.pop_types
  split
  · split
    · exact .inl rfl
    · exact .inr rfl
  · exact .inr rfl

/-- `pop_types` never touches `argument_ids`, `stack_index` or the raw
segment. -/
theorem pop_types_only_stack_ids (expected : List Nat) (d : DynSegment) :
    (d.pop_types expected).2.argument_ids = d.argument_ids ∧
      (d.pop_types expected).2.stack_index = d.stack_index ∧
      (d.pop_types expected).2.segment = d.segment := by
  unfold DynSegment.pop_types
  split
  · split
    · exact ⟨rfl, rfl, rfl⟩
    · exact ⟨rfl, rfl, rfl⟩
  · exact ⟨rfl, rfl, rfl⟩

/-- When the shadow stack is too short or the top `TypeId`s do not
match, `pop_types` fails and returns the receiver unchanged. -/
theorem pop_types_fails (expected : List Nat) (d : DynSegment)
    (h : d.stack_ids.length < expected.length ∨
      expected ≠ (d.stack_ids.drop (d.stack_ids.length - expected.length)).map
        (fun i => i.stack_id)) :
    (d.pop_types expected).1 ≠ .ok () ∧ (d.pop_types expected).2 = d := by
  unfold DynSegment.pop_types
  rcases h with h | h
  · rw [if_neg (by omega)]
    exact ⟨by simp, rfl⟩
  · by_cases hlen : expected.length ≤ d.stack_ids.length
    · rw [if_pos hlen, if_neg h]
      exact ⟨by simp, rfl⟩
    · rw [if_neg hlen]
      exact ⟨by simp, rfl⟩

/-- C6: for each arity, if the shadow stack has fewer than `N` entries
or the top `N` `TypeId`s (in argument order) do not match the declared
argument types, the append returns an error and the `DynSegment` —
raw segment, shadow stack, `stack_index` and `argument_ids` alike — is
unchanged. -/
theorem opn_mismatch_leaves_builder_unchanged (d : DynSegment) (t u v r : Ty)
    (f1 : List Nat → List Nat) (f2 : List Nat → List Nat → List Nat)
    (f3 : List Nat → List Nat → List Nat → List Nat) :
    ((d.stack_ids.length < 1 ∨
        [t.id] ≠ (d.stack_ids.drop (d.stack_ids.length - 1)).map
          (fun i => i.stack_id)) →
      (DynSegment.op1 t r f1 d).1 ≠ .ok () ∧ (DynSegment.op1 t r f1 d).2 = d) ∧
    ((d.stack_ids.length < 2 ∨
        [t.id, u.id] ≠ (d.stack_ids.drop (d.stack_ids.length - 2)).map
          (fun i => i.stack_id)) →
      (DynSegment.op2 t u r f2 d).1 ≠ .ok () ∧ (DynSegment.op2 t u r f2 d).2 = d) ∧
    ((d.stack_ids.length < 3 ∨
        [t.id, u.id, v.id] ≠ (d.stack_ids.drop (d.stack_ids.length - 3)).map
          (fun i => i.stack_id)) →
      (DynSegment.op3 t u v r f3 d).1 ≠ .ok () ∧ (DynSegment.op3 t u v r f3 d).2 = d) := by
  refine ⟨fun h => ?_, fun h => ?_, fun h => ?_⟩
  · have hp := pop_types_fails [t.id] d (by simpa using h)
    simp only [DynSegment.op1]
    rcases hm : d.pop_types [t.id] with ⟨res, d1⟩
    rw [hm] at hp
    cases res with
    | ok a =>
      cases a
      exact ((by simpa using hp.1 : False)).elim
    | error e => exact ⟨by simp, by simpa using hp.2⟩
  · have hp := pop_types_fails [t.id, u.id] d (by simpa using h)
    simp only [DynSegment.op2]
    rcases hm : d.pop_types [t.id, u.id] with ⟨res, d1⟩
    rw [hm] at hp
    cases res with
    | ok a =>
      cases a
      exact ((by simpa using hp.1 : False)).elim
    | error e => exact ⟨by simp, by simpa using hp.2⟩
  · have hp := pop_types_fails [t.id, u.id, v.id] d (by simpa using h)
    simp only [DynSegment.op3]
    rcases hm : d.pop_types [t.id, u.id, v.id] with ⟨res, d1⟩
    rw [hm] at hp
    cases res with
    | ok a =>
      cases a
      exact ((by simpa using hp.1 : False)).elim
    | error e => exact ⟨by simp, by simpa using hp.2⟩

/-- Witness for `opn_mismatch_leaves_builder_unchanged`: appending a
binary op to a freshly created argument-less segment (empty shadow
stack) fails and leaves it unchanged. -/
theorem opn_mismatch_witness :
    ((DynSegment.new []).stack_ids.length < 2 ∨
        [u32Ty.id, u32Ty.id] ≠ ((DynSegment.new []).stack_ids.drop
          ((DynSegment.new []).stack_ids.length - 2)).map (fun i => i.stack_id)) ∧
      (DynSegment.op2 u32Ty u32Ty u32Ty (fun a _ => a) (DynSegment.new [])).1 ≠ .ok () ∧
      (DynSegment.op2 u32Ty u32Ty u32Ty (fun a _ => a) (DynSegment.new [])).2
        = DynSegment.new [] :=
  ⟨by decide,
    (opn_mismatch_leaves_builder_unchanged (DynSegment.new []) u32Ty u32Ty u32Ty u32Ty
      (fun a => a) (fun a _ => a) (fun a _ _ => a)).2.1 (by decide)⟩


/-- Counterexample to C7 (claim: a `call0` prelude error never mutates
builder state): on a segment holding two `u32` values, `call0::<u32>`
returns the "values left on execution stack" error, yet its
`pop_types::<(u32, ())>` call has already truncated the matching top
entry off the shadow stack. -/
theorem call0_unconsumed_error_mutates :
    (twoValueSegment.call0 u32Ty).1 = .builderError (.unconsumed 1) ∧
      (twoValueSegment.call0 u32Ty).2.stack_ids ≠ twoValueSegment.stack_ids := by
  constructor
  · rfl
  · decide

/-- C7 (amended): when `call0` or `call1` fails its argument-count,
argument-type, or final-result-type check, the specific error is
returned, the raw segment is not executed, and the builder state is
unchanged.  (The remaining prelude error — more than one value left —
is returned without executing the segment but only after `pop_types`
has already removed the matching top entry, see
`call0_unconsumed_error_mutates`.) -/
theorem call_prelude_error_no_mutation (d : DynSegment) (a r : Ty)
    (bytes : List Nat) :
    (d.argument_ids.length ≠ 0 →
      (d.call0 r).1 = .builderError (.arityMismatch 0 d.argument_ids.length) ∧
        (d.call0 r).2 = d) ∧
    (d.argument_ids.length = 0 → ∀ e, (d.pop_types [r.id]).1 = .error e →
      (d.call0 r).1 = .builderError (.build e) ∧ (d.call0 r).2 = d) ∧
    (d.argument_ids.length ≠ 1 →
      (d.call1 a bytes r).1 = .builderError (.arityMismatch 1 d.argument_ids.length) ∧
        (d.call1 a bytes r).2 = d) ∧
    (d.argument_ids.length = 1 → d.argument_ids.getD 0 0 ≠ a.id →
      (d.call1 a bytes r).1 = .builderError .argumentTypeMismatch ∧
        (d.call1 a bytes r).2 = d) ∧
    (d.argument_ids.length = 1 → d.argument_ids.getD 0 0 = a.id →
      ∀ e, (d.pop_types [r.id]).1 = .error e →
        (d.call1 a bytes r).1 = .builderError (.build e) ∧
          (d.call1 a bytes r).2 = d) := by
  refine ⟨fun h0 => ?_, fun h0 e he => ?_, fun h1 => ?_,
    fun h1 ha => ?_, fun h1 ha e he => ?_⟩
  · unfold DynSegment.call0
    rw [if_pos h0]
    exact ⟨rfl, rfl⟩
  · unfold DynSegment.call0
    rw [if_neg (by omega)]
    have hd := (pop_types_cases [r.id] d).resolve_left (by
      intro hok
      rw [he] at hok
      exact Except.noConfusion hok)
    rcases hm : d.pop_types [r.id] with ⟨res, d1⟩
    rw [hm] at he hd
    cases res with
    | ok x => exact Except.noConfusion he
    | error e2 =>
      have : e2 = e := by simpa using he
      subst this
      exact ⟨rfl, by simpa using hd⟩
  · unfold DynSegment.call1
    rw [if_pos h1]
    exact ⟨rfl, rfl⟩
  · unfold DynSegment.call1
    rw [if_neg (by omega), if_pos ha]
    exact ⟨rfl, rfl⟩
  · unfold DynSegment.call1
    rw [if_neg (by omega), if_neg (by simpa using ha)]
    have hd := (pop_types_cases [r.id] d).resolve_left (by
      intro hok
      rw [he] at hok
      exact Except.noConfusion hok)
    rcases hm : d.pop_types [r.id] with ⟨res, d1⟩
    rw [hm] at he hd
    cases res with
    | ok x => exact Except.noConfusion he
    | error e2 =>
      have : e2 = e := by simpa using he
      subst this
      exact ⟨rfl, by simpa using hd⟩

/-- Witness for `call_prelude_error_no_mutation`: a segment built with
one declared argument rejects `call0` with an arity error and is left
unchanged. -/
theorem call_prelude_error_no_mutation_witness :
    (DynSegment.new [u32Ty]).argument_ids.length ≠ 0 ∧
      ((DynSegment.new [u32Ty]).call0 u32Ty).1
        = .builderError (.arityMismatch 0 (DynSegment.new [u32Ty]).argument_ids.length) ∧
      ((DynSegment.new [u32Ty]).call0 u32Ty).2 = DynSegment.new [u32Ty] :=
  ⟨by decide,
    (call_prelude_error_no_mutation (DynSegment.new [u32Ty]) u32Ty u32Ty []).1
      (by decide)⟩


/-- Counterexample to C9 (claim: a successful `call_k` can be repeated
with the same result): the first `call0::<u32>` on a one-op segment
succeeds, but repeating it on the same `DynSegment` gives a different
result (an error), because the prelude consumed the shadow stack. -/
theorem call0_second_call_differs :
    (oneValueSegment.call0 u32Ty).1 = .ok [42, 0, 0, 0] ∧
      ((oneValueSegment.call0 u32Ty).2.call0 u32Ty).1
        ≠ (oneValueSegment.call0 u32Ty).1 := by
  decide

/-- C9 (amended): a successful `call0` truncates the matching result
entry off the shadow stack, so a second `call0` on the same
`DynSegment` always fails `pop_types` with its length check instead of
repeating the result.  (The underlying `RawSegment` itself is immutable
during a call and can be re-run.) -/
theorem call0_consumes_shadow_stack (d : DynSegment) (r : Ty) (v : List Nat)
    (h : (d.call0 r).1 = .ok v) :
    ((d.call0 r).2.call0 r).1 = .builderError (.build (.tooManyArguments 1 0)) := by
  unfold DynSegment.call0 at h
  by_cases h0 : d.argument_ids.length ≠ 0
  · rw [if_pos h0] at h
    simp at h
  · rw [if_neg h0] at h
    rcases hm : d.pop_types [r.id] with ⟨res, d1⟩
    rw [hm] at h
    have hargs : d1.argument_ids = d.argument_ids := by
      have h2 := (pop_types_only_stack_ids [r.id] d).1
      rw [hm] at h2
      exact h2
    cases res with
    | error e => simp at h
    | ok x =>
      by_cases h1 : d1.stack_ids.length ≠ 0
      · simp only [if_pos h1] at h
        simp at h
      · have hs : d1.stack_ids.length = 0 := by omega
        have h2 : (d.call0 r).2 = d1 := by
          unfold DynSegment.call0
          rw [if_neg h0, hm]
          simp only [if_neg h1]
          cases hc : d1.segment.call0 r.size <;> simp [hc]
        rw [h2]
        have hpt : d1.pop_types [r.id] = (.error (.tooManyArguments 1 0), d1) := by
          unfold DynSegment.pop_types
          rw [if_neg (by simp [hs])]
          simp [hs]
        unfold DynSegment.call0
        rw [if_neg (show ¬ (d1.argument_ids.length ≠ 0) by rw [hargs]; exact h0), hpt]

/-- Witness for `call0_consumes_shadow_stack`: the one-op segment whose
first `call0` succeeds. -/
theorem call0_consumes_shadow_stack_witness :
    (oneValueSegment.call0 u32Ty).1 = .ok [42, 0, 0, 0] ∧
      ((oneValueSegment.call0 u32Ty).2.call0 u32Ty).1
        = .builderError (.build (.tooManyArguments 1 0)) :=
  ⟨by decide,
    call0_consumes_shadow_stack oneValueSegment u32Ty [42, 0, 0, 0] (by decide)⟩

/-- Counterexample to C8 (claim: the zero-op `new::<()>().call0::<()>()`
returns `Ok(())`): it returns the `pop_types` length-check error,
because the shadow stack of the zero-op segment is empty while
`pop_types::<((), ())>` demands one entry. -/
theorem zero_op_call0_errors :
    (DynSegment.call0 unitTy (DynSegment.new [])).1 ≠ .ok [] ∧
      (DynSegment.call0 unitTy (DynSegment.new [])).1
        = .builderError (.build (.tooManyArguments 1 0)) := by
  decide

/-- C8 (amended): the zero-op `new::<()>().call0::<()>()` returns the
`pop_types` length-check error, not `Ok(())`; the same call returns
`Ok(())` after a single `op0(|| ())` has been appended.  (No general
success characterization is claimed: even with one `()`-typed shadow
entry a call can still fail at run time, e.g. when that entry was
produced by a failing `op0r`.) -/
theorem zero_op_call0_amended :
    (DynSegment.call0 unitTy (DynSegment.new [])).1
        = .builderError (.build (.tooManyArguments 1 0)) ∧
      (DynSegment.call0 unitTy (DynSegment.op0 unitTy [] (DynSegment.new []))).1
        = .ok [] := by
  decide

/-- C2 (claim: after a fallible op fails, the stack is empty, all live
values are dropped once, and the user's error is surfaced): evaluating
the code on `failingDropSegment` — `op0(|| 7u8)`, `op1(u8 → u16)`,
`op0r(|| Err(42))`, `op2` — the unwinding dropper for the `u16` pops
with the recorded `padded = true` although the run-time `u16` sits
unpadded at offset 0, so `pop` underflows `p - padding_count`
(a `usize` panic in debug builds) instead of emptying the stack and
returning the user error `42`. -/
theorem op0r_error_drop_fails :
    (failingDropSegment.call0 u32Ty).1 = .fault ∧
      (failingDropSegment.call0 u32Ty).1 ≠ .userError 42 := by
  decide

/-- C3 (claim: `stack_index` always equals the run-time stack length
before the next push): already false at construction — for
`Args = (u16, u8)` the builder starts with
`stack_index = size_of::<CStackList<u8, CStackList<u16, CNil<()>>>>()
= 4` (the `repr(C)` size includes trailing struct padding), while
pre-loading the two arguments leaves the run-time stack at length 3,
which is where the next op would push. -/
theorem stack_index_not_run_length :
    (DynSegment.new [u16Ty, u8Ty]).stack_index = 4 ∧
      (RawStack.preload [(u16Ty.align, [0, 0]), (u8Ty.align, [0])]).buffer.length = 3 := by
  decide

/-- C4 (claim: the recorded base alignment covers every type pushed,
including argument types): `new::<(u64,)>` followed by
`op1(|x: u64| → u8)` records `base_alignment = 1` — only op result
types ever raise it — while executing `call1` pushes the `u64`
argument, so the stack must accommodate alignment 8. -/
theorem base_alignment_ignores_arguments :
    lowAlignSegment.segment.base_alignment = 1 ∧
      maxPushedAlignment [u64Ty] lowAlignSegment.segment.ops = 8 ∧
      lowAlignSegment.segment.base_alignment
        < maxPushedAlignment [u64Ty] lowAlignSegment.segment.ops := by
  refine ⟨rfl, rfl, by decide⟩

end CelRS
